import Mathlib

/-!
Shallow embedding of the metrics/aggregation core of the clinical dashboard
(`dashboard_metrics.py`, `utils/dashboard_utils.py`, `kmc_dashboard.py`),
together with theorems settling the spec claims about that code.

Conventions used throughout the embedding:
* Loosely-typed record fields (Python values read with `dict.get`) are modelled
  by the inductive `PyVal` (absent / number / string / boolean).  Python floats
  and ints are both modelled as rationals (`ℚ`).
* A civil date-time is modelled as rational seconds since the Unix epoch of the
  *naive* (offset-free) value the Python code carries around; `dateOf` is the
  `.date()` projection, counted in whole days since the epoch.
* `pandas.to_datetime(·, errors="coerce")` (an external library parser) is
  modelled as an explicit parameter `pp : String → Option ℚ`; `none` models
  `NaT`/unparseable.
* Python's `float(x)` applied to strings is modelled by `parseDecimal`, which
  covers plain signed decimal notation (the shapes occurring in this data).
-/

/-- A loosely-typed Python value as read from a record with `dict.get`. -/
inductive PyVal where
  | none
  | num (q : ℚ)
  | str (s : String)
  | bool (b : Bool)
  deriving DecidableEq, Repr

/-- Python truthiness of a `PyVal` (`if x:`). -/
def pyTruthy : PyVal → Bool
  | .none => false
  | .num q => q ≠ 0
  | .str s => s ≠ ""
  | .bool b => b

/-- Python `a or b` on loosely-typed values: `a` if truthy, else `b`. -/
def pyOrV (a b : PyVal) : PyVal :=
  if pyTruthy a then a else b

/-- Truthiness of an optional string (`dict.get` that yields a string or `None`). -/
def truthyStr : Option String → Bool
  | Option.none => false
  | some s => s ≠ ""

/-- Python `a or b` for optional string fields. -/
def pyOrS (a b : Option String) : Option String :=
  if truthyStr a then a else b

/-- Value of a digit string read left to right, failing on a non-digit.
Helper for `parseDecimal`. -/
def digitsVal : List Char → ℕ → Option ℕ
  | [], acc => some acc
  | c :: cs, acc =>
    if c.isDigit then digitsVal cs (acc * 10 + (c.toNat - '0'.toNat))
    else Option.none

/-- The whitespace set of Python's `str.strip()`. -/
def isPyWs (c : Char) : Bool :=
  c = ' ' ∨ c = '\t' ∨ c = '\n' ∨ c = '\r' ∨ c = '\x0b' ∨ c = '\x0c'

/-- `str.strip()` on a character list: drop whitespace at both ends. -/
def pyStripL (cs : List Char) : List Char :=
  ((cs.dropWhile isPyWs).reverse.dropWhile isPyWs).reverse

/-- Model of Python `str.strip()` with no arguments. -/
def pyStrip (s : String) : String :=
  ⟨pyStripL s.data⟩

/-- Model of Python `float(s)` on a string: optional sign, decimal digits with
at most one point, surrounding whitespace stripped.  Exotic float syntax
(exponents, `inf`, `nan`, underscores) is not used by this data set. -/
def parseDecimal (s : String) : Option ℚ :=
  let cs := pyStripL s.data
  let (sgn, rest) :=
    match cs with
    | '-' :: r => ((-1 : ℚ), r)
    | '+' :: r => ((1 : ℚ), r)
    | r => ((1 : ℚ), r)
  let intPart := rest.takeWhile fun c => c ≠ '.'
  match rest.drop intPart.length with
  | [] =>
    if intPart = [] then Option.none
    else match digitsVal intPart 0 with
      | some n => some (sgn * n)
      | Option.none => Option.none
  | '.' :: frac =>
    if frac.contains '.' then Option.none
    else if intPart = [] ∧ frac = [] then Option.none
    else match digitsVal intPart 0, digitsVal frac 0 with
      | some n, some f => some (sgn * ((n : ℚ) + (f : ℚ) / 10 ^ frac.length))
      | _, _ => Option.none
  | _ => Option.none

/-- Model of Python `float(x)` on a loosely-typed value: numbers pass through,
strings go through `parseDecimal`, booleans coerce to 0/1, `None` fails. -/
def pyFloat : PyVal → Option ℚ
  | .none => Option.none
  | .num q => some q
  | .str s => parseDecimal s
  | .bool b => some (if b then 1 else 0)

/-- Seconds of the fixed IST offset (UTC+5:30) applied by the dashboard. -/
def istOffsetSeconds : ℚ := 19800

/-- Lower bound (epoch seconds) representable by `datetime` (year 1). -/
def minEpochSeconds : ℚ := -62135596800

/-- Exclusive upper bound (epoch seconds) representable by `datetime`
(start of year 10000). -/
def maxEpochSeconds : ℚ := 253402300800

/-- Embedding of `convert_unix_to_datetime` (`utils/dashboard_utils.py`).
Falsy input (None, 0, empty string, False) returns `none`.  A number is epoch
seconds when `≤ 10^12`, else epoch milliseconds; the UTC instant is shifted to
IST (UTC+5:30) and returned as a naive date-time, provided both
`datetime.fromtimestamp` and the shift stay inside the representable year
range 1–9999 (outside it the raised `ValueError`/`OverflowError` is caught and
`None` returned).  A string goes to the pandas parser `pp`, whose result is
returned unshifted (`NaT` → `none`).  `True` is an `int` instance in Python
and converts like the number 1. -/
def convert_unix_to_datetime (pp : String → Option ℚ) (v : PyVal) : Option ℚ :=
  if pyTruthy v = false then Option.none
  else
    match v with
    | .num q =>
      let s := if q > 10 ^ 12 then q / 1000 else q
      if minEpochSeconds ≤ s ∧ s + istOffsetSeconds < maxEpochSeconds then
        some (s + istOffsetSeconds)
      else Option.none
    | .str st => pp st
    | .bool _ =>
      if minEpochSeconds ≤ 1 ∧ (1 : ℚ) + istOffsetSeconds < maxEpochSeconds then
        some (1 + istOffsetSeconds)
      else Option.none
    | .none => Option.none

/-- `.date()` of a naive date-time value: whole days since the epoch. -/
def dateOf (q : ℚ) : ℤ := ⌊q / 86400⌋

/-- A pandas parser that parses nothing, used to instantiate witnesses. -/
def ppNone : String → Option ℚ := fun _ => Option.none

namespace DashboardUtils

/-- The record fields read by `categorize_discharge`
(`utils/dashboard_utils.py`): a discharge-collection record carries
`dischargeStatus`/`dischargeType`, a baby/babyBackUp record carries
`lastDischargeStatus`/`lastDischargeType`. -/
structure DischargeFields where
  dischargeStatus : Option String := Option.none
  dischargeType : Option String := Option.none
  lastDischargeStatus : Option String := Option.none
  lastDischargeType : Option String := Option.none
  deriving DecidableEq, Repr

/-- Embedding of `categorize_discharge` (`utils/dashboard_utils.py`): maps the
lower-cased (status, type) pair of the appropriate field family to one of the
five category keys, source families `discharges` / `baby` / `babyBackUp`,
anything else falling through to `other`. -/
def categorize_discharge (record : DischargeFields) (source : String) : String :=
  if source = "discharges" then
    let discharge_status := (record.dischargeStatus.getD "").toLower
    let discharge_type := (record.dischargeType.getD "").toLower
    if discharge_status = "critical" ∧ discharge_type = "home" then "critical_home"
    else if discharge_status = "stable" ∧ discharge_type = "home" then "stable_home"
    else if discharge_status = "critical" ∧ discharge_type = "referred" then "critical_referred"
    else if discharge_type = "died" then "died"
    else "other"
  else if source = "baby" then
    let last_discharge_status := (record.lastDischargeStatus.getD "").toLower
    let last_discharge_type := (record.lastDischargeType.getD "").toLower
    if last_discharge_status = "critical" ∧ last_discharge_type = "home" then "critical_home"
    else if last_discharge_status = "stable" ∧ last_discharge_type = "home" then "stable_home"
    else if last_discharge_status = "critical" ∧ last_discharge_type = "referred" then "critical_referred"
    else if last_discharge_type = "died" then "died"
    else "other"
  else if source = "babyBackUp" then
    let last_discharge_status := (record.lastDischargeStatus.getD "").toLower
    let last_discharge_type := (record.lastDischargeType.getD "").toLower
    if last_discharge_status = "critical" ∧ last_discharge_type = "home" then "critical_home"
    else if last_discharge_status = "stable" ∧ last_discharge_type = "home" then "stable_home"
    else if last_discharge_status = "critical" ∧ last_discharge_type = "referred" then "critical_referred"
    else if last_discharge_type = "died" then "died"
    else "other"
  else "other"

/-- The (status, type) → category table as the claim states it, applied to an
already lower-cased pair.  Used to compare `categorize_discharge` against the
claimed mapping. -/
def claimedCategoryTable (status ty : String) : String :=
  if status = "critical" ∧ ty = "home" then "critical_home"
  else if status = "stable" ∧ ty = "home" then "stable_home"
  else if status = "critical" ∧ ty = "referred" then "critical_referred"
  else if ty = "died" then "died"
  else "other"

/-- The patient-record fields read by the prioritized field resolvers
(`utils/dashboard_utils.py`). -/
structure PrioBaby where
  dischargeWeight : Option String := Option.none
  babyTemperatureDischarge2 : Option String := Option.none
  babyRRdischarge : Option String := Option.none
  whatFeedMode : Option String := Option.none
  howsBabyHealth : Option String := Option.none
  criticalReasons : Option String := Option.none
  dischargeReason : Option String := Option.none
  deriving DecidableEq, Repr

/-- The discharge-record fields read by the prioritized field resolvers. -/
structure PrioDischarge where
  dischargeWeight : Option String := Option.none
  dischargeTemperature : Option String := Option.none
  dischargeRR : Option String := Option.none
  feedMode : Option String := Option.none
  dischargeDangerSigns : Option String := Option.none
  criticalReasons : Option String := Option.none
  dischargeReason : Option String := Option.none
  deriving DecidableEq, Repr

/-- Embedding of `get_prioritized_discharge_weight`: discharge-collection field
first, `"N/A"` signalling absence, then the baby record's field, else `"N/A"`. -/
def get_prioritized_discharge_weight (baby : PrioBaby) (md : Option PrioDischarge) : String :=
  let fromDischarge :=
    match md with
    | some d => d.dischargeWeight.getD "N/A"
    | Option.none => "N/A"
  if fromDischarge = "N/A" then baby.dischargeWeight.getD "N/A" else fromDischarge

/-- Embedding of `get_prioritized_discharge_temperature`. -/
def get_prioritized_discharge_temperature (baby : PrioBaby) (md : Option PrioDischarge) : String :=
  let fromDischarge :=
    match md with
    | some d => d.dischargeTemperature.getD "N/A"
    | Option.none => "N/A"
  if fromDischarge = "N/A" then baby.babyTemperatureDischarge2.getD "N/A" else fromDischarge

/-- Embedding of `get_prioritized_discharge_rr`. -/
def get_prioritized_discharge_rr (baby : PrioBaby) (md : Option PrioDischarge) : String :=
  let fromDischarge :=
    match md with
    | some d => d.dischargeRR.getD "N/A"
    | Option.none => "N/A"
  if fromDischarge = "N/A" then baby.babyRRdischarge.getD "N/A" else fromDischarge

/-- Embedding of `get_prioritized_feed_mode`. -/
def get_prioritized_feed_mode (baby : PrioBaby) (md : Option PrioDischarge) : String :=
  let fromDischarge :=
    match md with
    | some d => d.feedMode.getD "N/A"
    | Option.none => "N/A"
  if fromDischarge = "N/A" then baby.whatFeedMode.getD "N/A" else fromDischarge

/-- Embedding of `get_prioritized_baby_health`. -/
def get_prioritized_baby_health (baby : PrioBaby) (md : Option PrioDischarge) : String :=
  let fromDischarge :=
    match md with
    | some d => d.dischargeDangerSigns.getD "N/A"
    | Option.none => "N/A"
  if fromDischarge = "N/A" then baby.howsBabyHealth.getD "N/A" else fromDischarge

/-- Embedding of `get_prioritized_critical_reasons`. -/
def get_prioritized_critical_reasons (baby : PrioBaby) (md : Option PrioDischarge) : String :=
  let fromDischarge :=
    match md with
    | some d => d.criticalReasons.getD "N/A"
    | Option.none => "N/A"
  if fromDischarge = "N/A" then baby.criticalReasons.getD "N/A" else fromDischarge

/-- Embedding of `get_prioritized_discharge_reason`. -/
def get_prioritized_discharge_reason (baby : PrioBaby) (md : Option PrioDischarge) : String :=
  let fromDischarge :=
    match md with
    | some d => d.dischargeReason.getD "N/A"
    | Option.none => "N/A"
  if fromDischarge = "N/A" then baby.dischargeReason.getD "N/A" else fromDischarge

/-- The priority rule exactly as the claim words it: the matched discharge
record's field when present and not the sentinel `"N/A"`, otherwise the
patient record's legacy-named field, otherwise `"N/A"`. -/
def claimedPriority (dischargeField : Option String) (babyField : Option String) : String :=
  match dischargeField with
  | some v => if v ≠ "N/A" then v else babyField.getD "N/A"
  | Option.none => babyField.getD "N/A"

end DashboardUtils

/-- Substring test, modelling Python's `needle in haystack` on strings. -/
def strContainsSub (hay needle : String) : Bool :=
  (List.range (hay.length + 1)).any fun i => (hay.drop i).take needle.length = needle

namespace KmcDashboard

/-- The per-day verification fields read by
`calculate_kmc_verification_monitoring` (`kmc_dashboard.py`). -/
structure ObsDayVerification where
  filledCorrectly : PyVal := PyVal.none
  kmcfilledcorrectly : PyVal := PyVal.none
  mnecomment : String := ""
  deriving DecidableEq, Repr

/-- Embedding of the per-observation-day status resolution inside
`calculate_kmc_verification_monitoring` (`kmc_dashboard.py` lines 188-221):
a non-blank `mnecomment` forces `"incorrect"`; otherwise the boolean
`filledCorrectly` then `kmcfilledcorrectly` flags decide, with a string-valued
`kmcfilledcorrectly` handled as a legacy fallback; default `"not_verified"`. -/
def kmcVerificationStatus (obs : ObsDayVerification) : String :=
  if obs.mnecomment ≠ "" ∧ pyStrip obs.mnecomment ≠ "" then "incorrect"
  else if obs.filledCorrectly = PyVal.bool true then "correct"
  else if obs.filledCorrectly = PyVal.bool false then "incorrect"
  else if obs.kmcfilledcorrectly = PyVal.bool true then "correct"
  else if obs.kmcfilledcorrectly = PyVal.bool false then "incorrect"
  else
    match obs.kmcfilledcorrectly with
    | PyVal.str s =>
      if s ≠ "" then
        let kmc_lower := s.toLower
        if kmc_lower = "correct" ∨ kmc_lower = "true" then "correct"
        else if kmc_lower = "incorrect" ∨ kmc_lower = "false" then "incorrect"
        else if strContainsSub kmc_lower "unable" then "unable_to_verify"
        else "not_verified"
      else "not_verified"
    | _ => "not_verified"

end KmcDashboard

namespace Metrics

/-- The record fields read by `calculate_registration_timeliness`
(`dashboard_metrics.py` lines 23-52).  `UID` is carried by real records but is
never read by this function.  `registrationDataTypeRegistrationDate` models the
nested lookup `baby.get('registrationDataType', {}).get('registrationDate')`. -/
structure RegBaby where
  UID : Option String := Option.none
  placeOfDelivery : PyVal := PyVal.none
  dateOfBirth : PyVal := PyVal.none
  registrationDate : PyVal := PyVal.none
  registrationDataTypeRegistrationDate : PyVal := PyVal.none
  deriving DecidableEq, Repr

/-- The inborn test of `calculate_registration_timeliness`:
`placeOfDelivery in ['यह अस्पताल', 'this hospital']`. -/
def isInbornReg (b : RegBaby) : Bool :=
  b.placeOfDelivery = PyVal.str "यह अस्पताल" ∨ b.placeOfDelivery = PyVal.str "this hospital"

/-- Result structure of `calculate_registration_timeliness`. -/
structure RegOut where
  total_inborn : ℕ
  within_24h_count : ℕ
  within_24h_percentage : ℚ
  within_12h_count : ℕ
  within_12h_percentage : ℚ
  deriving DecidableEq, Repr

/-- One loop iteration of `calculate_registration_timeliness` over an inborn
record, updating the `(within_24h, within_12h)` counters. -/
def regCountsStep (pp : String → Option ℚ) (acc : ℕ × ℕ) (b : RegBaby) : ℕ × ℕ :=
  match convert_unix_to_datetime pp b.dateOfBirth,
      convert_unix_to_datetime pp
        (pyOrV b.registrationDate b.registrationDataTypeRegistrationDate) with
  | some bt, some rt =>
    let time_diff := (rt - bt) / 3600
    if 0 ≤ time_diff ∧ time_diff ≤ 24 then
      (acc.1 + 1, if time_diff ≤ 12 then acc.2 + 1 else acc.2)
    else acc
  | _, _ => acc

/-- Embedding of `calculate_registration_timeliness` (`dashboard_metrics.py`):
filter to inborn records, count the `0 ≤ diff ≤ 24` and `diff ≤ 12` buckets,
percentages guarded against a zero denominator. -/
def calculate_registration_timeliness (pp : String → Option ℚ)
    (baby_data : List RegBaby) : RegOut :=
  let inborn_babies := baby_data.filter isInbornReg
  let counts := inborn_babies.foldl (regCountsStep pp) (0, 0)
  let total_inborn := inborn_babies.length
  { total_inborn := total_inborn
    within_24h_count := counts.1
    within_24h_percentage :=
      if total_inborn > 0 then (counts.1 : ℚ) / total_inborn * 100 else 0
    within_12h_count := counts.2
    within_12h_percentage :=
      if total_inborn > 0 then (counts.2 : ℚ) / total_inborn * 100 else 0 }

/-- The `safe_div` helper defined inside both sandbox metric functions
(`dashboard_metrics.py`): `n / d if d else 0.0`. -/
def safe_div (n d : ℚ) : ℚ :=
  if d ≠ 0 then n / d else 0

/-- The record fields read by the eligibility filters of
`calculate_sandbox_system_metrics` and `calculate_sandbox_program_metrics`. -/
structure SandboxBaby where
  UID : Option String := Option.none
  babyInProgram : PyVal := PyVal.none
  birthWeight : PyVal := PyVal.none
  gestationalAge : PyVal := PyVal.none
  deriving DecidableEq, Repr

/-- Embedding of the eligibility filter of `calculate_sandbox_system_metrics`
(`dashboard_metrics.py` lines 1141-1169): enrolled flag, then a truthy weight
parsing below 2500, then — only if still ineligible — a truthy gestational age
parsing at most 36; `float` failures are swallowed (`except: pass`). -/
def sandboxEligibleSystem (b : SandboxBaby) : Bool :=
  let e1 := pyTruthy b.babyInProgram
  let e2 :=
    if pyTruthy b.birthWeight then
      match pyFloat b.birthWeight with
      | some w => if w < 2500 then true else e1
      | Option.none => e1
    else e1
  if e2 = false ∧ pyTruthy b.gestationalAge then
    match pyFloat b.gestationalAge with
    | some g => if g ≤ 36 then true else e2
    | Option.none => e2
  else e2

/-- Embedding of the eligibility filter of `calculate_sandbox_program_metrics`
(`dashboard_metrics.py` lines 1430-1449); textually the same logic as the
system variant. -/
def sandboxEligibleProgram (b : SandboxBaby) : Bool :=
  let e1 := pyTruthy b.babyInProgram
  let e2 :=
    if pyTruthy b.birthWeight then
      match pyFloat b.birthWeight with
      | some w => if w < 2500 then true else e1
      | Option.none => e1
    else e1
  if e2 = false ∧ pyTruthy b.gestationalAge then
    match pyFloat b.gestationalAge with
    | some g => if g ≤ 36 then true else e2
    | Option.none => e2
  else e2

/-- The eligibility rule exactly as the claim words it: enrolled flag is true,
or the birth weight parses to a number < 2500, or the gestational age parses
to a number ≤ 36. -/
def claimedSandboxEligible (b : SandboxBaby) : Bool :=
  decide (b.babyInProgram = PyVal.bool true) ||
    (match pyFloat b.birthWeight with
     | some w => decide (w < 2500)
     | Option.none => false) ||
    (match pyFloat b.gestationalAge with
     | some g => decide (g ≤ 36)
     | Option.none => false)

/-- A KMC-session record as read by the sandbox daily-KMC reconstruction
(`dashboard_metrics.py`).  `kmcDuration` is numeric when present. -/
structure KmcSession where
  idBaby : Option String := Option.none
  UID : Option String := Option.none
  kmcStart : PyVal := PyVal.none
  kmcDuration : Option ℚ := Option.none
  deriving DecidableEq, Repr

/-- A per-day aggregate entry of a baby's `age_days` array. -/
structure AgeDayRec where
  ageDayDate : PyVal := PyVal.none
  totalKMCToday : Option ℚ := Option.none
  deriving DecidableEq, Repr

/-- The fields of a sandbox-eligible baby used by the daily-KMC
reconstruction. -/
structure SandboxDayBaby where
  UID : Option String := Option.none
  age_days : List AgeDayRec := []
  deriving DecidableEq, Repr

/-- `defaultdict(float)` keyed by `(baby id, calendar date)`. -/
def KmcDayMap := String × ℤ → ℚ

/-- Point update of a `KmcDayMap`. -/
def mapUpdate (m : KmcDayMap) (k : String × ℤ) (v : ℚ) : KmcDayMap :=
  fun kv => if kv = k then v else m kv

/-- One session's contribution to `daily_kmc_map`
(`calculate_sandbox_system_metrics`, lines 1322-1327): resolve the baby id as
`idBaby or UID`, convert the start, and add `kmcDuration/60` at
`(id, start.date())` when both id and start are truthy. -/
def sessionDayMapStep (pp : String → Option ℚ) (m : KmcDayMap) (s : KmcSession) : KmcDayMap :=
  let bid := pyOrS s.idBaby s.UID
  let duration := s.kmcDuration.getD 0 / 60
  match convert_unix_to_datetime pp s.kmcStart with
  | some dt =>
    if truthyStr bid then
      let k := (bid.getD "", dateOf dt)
      mapUpdate m k (m k + duration)
    else m
  | Option.none => m

/-- The session pass of `daily_kmc_map` in `calculate_sandbox_system_metrics`. -/
def buildSessionDayMapSystem (pp : String → Option ℚ) (sessions : List KmcSession) : KmcDayMap :=
  sessions.foldl (sessionDayMapStep pp) fun _ => 0

/-- One `age_days` entry folded into the map
(`calculate_sandbox_system_metrics`, lines 1334-1340): a positive
`totalKMCToday` with a truthy date is reconciled by `max`, not addition; an
unparseable date crashes (`None.date()`), modelled as `none`. -/
def ageDayMaxStep (pp : String → Option ℚ) (bid : String) (m : KmcDayMap)
    (day : AgeDayRec) : Option KmcDayMap :=
  let mins := day.totalKMCToday.getD 0
  if mins > 0 then
    if pyTruthy day.ageDayDate then
      match convert_unix_to_datetime pp day.ageDayDate with
      | some dt =>
        let k := (bid, dateOf dt)
        some (mapUpdate m k (max (m k) (mins / 60)))
      | Option.none => Option.none
    else some m
  else some m

/-- The per-baby `age_days` pass over the map (`for baby in eligible_babies`),
skipping babies without a truthy `UID`. -/
def babyAgeDaysStep (pp : String → Option ℚ) (m : KmcDayMap)
    (b : SandboxDayBaby) : Option KmcDayMap :=
  match b.UID with
  | some u => if u ≠ "" then b.age_days.foldlM (ageDayMaxStep pp u) m else some m
  | Option.none => some m

/-- Embedding of the `daily_kmc_map` construction of
`calculate_sandbox_system_metrics` (`dashboard_metrics.py` lines 1319-1340):
sessions are summed per `(id, day)`, then `age_days` day aggregates are
reconciled in by `max`. -/
def daily_kmc_map_system (pp : String → Option ℚ) (sessions : List KmcSession)
    (babies : List SandboxDayBaby) : Option KmcDayMap :=
  babies.foldlM (babyAgeDaysStep pp) (buildSessionDayMapSystem pp sessions)

/-- The session pass of `kmc_per_day` in `calculate_sandbox_program_metrics`
(`dashboard_metrics.py` lines 1534-1539); textually the same loop as the
system variant. -/
def buildSessionDayMapProgram (pp : String → Option ℚ) (sessions : List KmcSession) : KmcDayMap :=
  sessions.foldl (sessionDayMapStep pp) fun _ => 0

/-- Embedding of the `kmc_per_day` construction of
`calculate_sandbox_program_metrics` (`dashboard_metrics.py` lines 1531-1550):
same sum-then-max reconciliation as the system variant. -/
def kmc_per_day_program (pp : String → Option ℚ) (sessions : List KmcSession)
    (babies : List SandboxDayBaby) : Option KmcDayMap :=
  babies.foldlM (babyAgeDaysStep pp) (buildSessionDayMapProgram pp sessions)

/-- A legacy `observationDay` entry as read by
`calculate_average_kmc_by_location`.  `ageDay` is the integer day-of-life
offset (`date + timedelta(days=·)` uses whole days). -/
structure ObsDayLegacy where
  ageDay : Option ℤ := Option.none
  totalKMCtimeDay : Option ℚ := Option.none
  deriving DecidableEq, Repr

/-- The record fields read by `calculate_average_kmc_by_location`
(`dashboard_metrics.py` lines 176-238).  `observationDay` is `none` when the
key is absent (the code tests `'observationDay' in baby`).  `UID` is carried
by real records but never read by this function. -/
structure AvgBaby where
  UID : Option String := Option.none
  hospitalName : Option String := Option.none
  currentLocationOfTheBaby : Option String := Option.none
  dateOfBirth : PyVal := PyVal.none
  age_days : List AgeDayRec := []
  observationDay : Option (List ObsDayLegacy) := Option.none
  deriving DecidableEq, Repr

/-- Per-`(hospital, location)` accumulator of
`calculate_average_kmc_by_location`. -/
structure LocAgg where
  hospital : String
  location : String
  total_kmc_minutes : ℚ
  observation_days : ℕ
  baby_count : ℕ
  deriving DecidableEq, Repr

/-- `if key not in d: d[key] = init` for the location accumulator dict. -/
def ensureLoc (m : List (String × LocAgg)) (key hospital location : String) :
    List (String × LocAgg) :=
  if (m.lookup key).isSome then m
  else m ++ [(key, ⟨hospital, location, 0, 0, 0⟩)]

/-- In-place field update of the accumulator at `key`. -/
def modifyLoc (m : List (String × LocAgg)) (key : String) (f : LocAgg → LocAgg) :
    List (String × LocAgg) :=
  m.map fun p => if p.1 = key then (p.1, f p.2) else p

/-- One `age_days` entry of the new-structure loop of
`calculate_average_kmc_by_location` (lines 199-208), threading
`(accumulator, baby_has_kmc_in_period)`; an unparseable truthy date means
`convert_unix_to_datetime(...).date()` raises, modelled as `none`. -/
def avgAgeDayStep (pp : String → Option ℚ) (startD endD : ℤ) (key : String)
    (acc : List (String × LocAgg) × Bool) (day : AgeDayRec) :
    Option (List (String × LocAgg) × Bool) :=
  if pyTruthy day.ageDayDate then
    match convert_unix_to_datetime pp day.ageDayDate with
    | some dt =>
      let day_date := dateOf dt
      if startD ≤ day_date ∧ day_date ≤ endD then
        let kmc_minutes := day.totalKMCToday.getD 0
        if kmc_minutes > 0 then
          some (modifyLoc acc.1 key fun a =>
            { a with
              total_kmc_minutes := a.total_kmc_minutes + kmc_minutes
              observation_days := a.observation_days + 1 }, true)
        else some acc
      else some acc
    | Option.none => Option.none
  else some acc

/-- One legacy `observationDay` entry (lines 211-221): skip when `ageDay` is
`None`, date the observation from birth plus the day offset. -/
def avgObsDayStep (startD endD : ℤ) (birthDate : ℤ) (key : String)
    (acc : List (String × LocAgg) × Bool) (day : ObsDayLegacy) :
    List (String × LocAgg) × Bool :=
  match day.ageDay with
  | Option.none => acc
  | some n =>
    let obs_date := birthDate + n
    if startD ≤ obs_date ∧ obs_date ≤ endD then
      let kmc_minutes := day.totalKMCtimeDay.getD 0
      if kmc_minutes > 0 then
        (modifyLoc acc.1 key fun a =>
          { a with
            total_kmc_minutes := a.total_kmc_minutes + kmc_minutes
            observation_days := a.observation_days + 1 }, true)
      else acc
    else acc

/-- The per-baby body of `calculate_average_kmc_by_location`: requires a
parseable birth date, initializes the `(hospital, location)` bucket, scans
`age_days`, falls back to legacy `observationDay` only when `age_days` is
empty and the key exists, and finally counts the baby once if it had KMC in
the window. -/
def avgBabyStep (pp : String → Option ℚ) (startD endD : ℤ)
    (m : List (String × LocAgg)) (baby : AvgBaby) : Option (List (String × LocAgg)) := do
  let hospital := baby.hospitalName.getD "Unknown"
  let location := baby.currentLocationOfTheBaby.getD "Unknown"
  match convert_unix_to_datetime pp baby.dateOfBirth with
  | Option.none => some m
  | some birth =>
    let key := hospital ++ "-" ++ location
    let m0 := ensureLoc m key hospital location
    let acc1 ← baby.age_days.foldlM (avgAgeDayStep pp startD endD key) (m0, false)
    let acc2 :=
      if baby.age_days = [] then
        match baby.observationDay with
        | some obsDays =>
          obsDays.foldl (avgObsDayStep startD endD (dateOf birth) key) acc1
        | Option.none => acc1
      else acc1
    if acc2.2 then
      some (modifyLoc acc2.1 key fun a => { a with baby_count := a.baby_count + 1 })
    else some acc2.1

/-- One row of the result list of `calculate_average_kmc_by_location`. -/
structure AvgOut where
  hospital : String
  location : String
  avg_hours_per_day : ℚ
  avg_hours_per_baby : ℚ
  baby_count : ℕ
  observation_days : ℕ
  deriving DecidableEq, Repr

/-- Embedding of `calculate_average_kmc_by_location` (`dashboard_metrics.py`
lines 176-238): accumulate per `(hospital, location)`, then emit one row per
bucket with positive observation days.  `none` models a raised exception on an
unparseable truthy `ageDayDate`. -/
def calculate_average_kmc_by_location (pp : String → Option ℚ)
    (baby_data : List AvgBaby) (startD endD : ℤ) : Option (List AvgOut) := do
  let m ← baby_data.foldlM (avgBabyStep pp startD endD) []
  some <| (m.filter fun p => p.2.observation_days > 0).map fun p =>
    { hospital := p.2.hospital
      location := p.2.location
      avg_hours_per_day := p.2.total_kmc_minutes / p.2.observation_days / 60
      avg_hours_per_baby :=
        if p.2.baby_count > 0 then p.2.total_kmc_minutes / p.2.baby_count / 60 else 0
      baby_count := p.2.baby_count
      observation_days := p.2.observation_days }

/-- The record fields read by the main entity pass of `calculate_death_rates`
(`dashboard_metrics.py` lines 413-467), including everything
`check_kmc_stability` inspects. -/
structure DRBaby where
  UID : Option String := Option.none
  hospitalName : Option String := Option.none
  deadBaby : PyVal := PyVal.none
  placeOfDelivery : PyVal := PyVal.none
  currentLocationOfTheBaby : Option String := Option.none
  dateOfBirth : PyVal := PyVal.none
  dateOfDeath : PyVal := PyVal.none
  oxygenTherapy : PyVal := PyVal.none
  onOxygen : PyVal := PyVal.none
  mechanicalVentilation : PyVal := PyVal.none
  onVentilator : PyVal := PyVal.none
  sepsis : PyVal := PyVal.none
  jaundice : PyVal := PyVal.none
  hypoglycemia : PyVal := PyVal.none
  hypothermia : PyVal := PyVal.none
  apnea : PyVal := PyVal.none
  feedingDifficulty : PyVal := PyVal.none
  lethargy : PyVal := PyVal.none
  seizures : PyVal := PyVal.none
  birthWeight : PyVal := PyVal.none
  weight : PyVal := PyVal.none
  deriving DecidableEq, Repr

/-- Embedding of `check_kmc_stability` (`utils/dashboard_utils.py` lines
221-250): any of the twelve clinical flags identically `True`, or a truthy
birth weight parsing below 1500, makes the baby `"unstable"`; otherwise
`"stable"` (parse failures swallowed). -/
def check_kmc_stability (b : DRBaby) : String :=
  let flagged : Bool :=
    b.oxygenTherapy = PyVal.bool true ∨ b.onOxygen = PyVal.bool true ∨
    b.mechanicalVentilation = PyVal.bool true ∨ b.onVentilator = PyVal.bool true ∨
    b.sepsis = PyVal.bool true ∨ b.jaundice = PyVal.bool true ∨
    b.hypoglycemia = PyVal.bool true ∨ b.hypothermia = PyVal.bool true ∨
    b.apnea = PyVal.bool true ∨ b.feedingDifficulty = PyVal.bool true ∨
    b.lethargy = PyVal.bool true ∨ b.seizures = PyVal.bool true
  let bw := pyOrV b.birthWeight b.weight
  let weightUnstable : Bool :=
    pyTruthy bw &&
      match pyFloat bw with
      | some w => decide (w < 1500)
      | Option.none => false
  if flagged || weightUnstable then "unstable" else "stable"

/-- `d[k] = d.get(k, 0) + 1` on an insertion-ordered counter dict. -/
def bumpCount (m : List (String × ℕ)) (k : String) : List (String × ℕ) :=
  if (m.lookup k).isSome then
    m.map fun p => if p.1 = k then (p.1, p.2 + 1) else p
  else m ++ [(k, 1)]

/-- The accumulator state of the main entity pass of `calculate_death_rates`
(`dashboard_metrics.py` lines 383-402 initialisations). -/
structure DRState where
  processed_uids : List String := []
  hospital_totals : List (String × ℕ) := []
  hospital_deaths : List (String × ℕ) := []
  inborn_total : ℕ := 0
  inborn_deaths : ℕ := 0
  outborn_total : ℕ := 0
  outborn_deaths : ℕ := 0
  dead_uids : List String := []
  kmc_stable_total : ℕ := 0
  kmc_stable_deaths : ℕ := 0
  kmc_unstable_total : ℕ := 0
  kmc_unstable_deaths : ℕ := 0
  neonatal_deaths : ℕ := 0
  infant_deaths : ℕ := 0
  location_totals : List (String × ℕ) := []
  location_deaths : List (String × ℕ) := []
  deriving DecidableEq, Repr

/-- One iteration of the main entity pass of `calculate_death_rates`
(`dashboard_metrics.py` lines 413-467): skip records without a truthy `UID`
or with an already-processed one, otherwise update every counter family. -/
def drStep (pp : String → Option ℚ) (st : DRState) (b : DRBaby) : DRState :=
  match b.UID with
  | Option.none => st
  | some u =>
    if u = "" ∨ u ∈ st.processed_uids then st
    else
      let hospital := b.hospitalName.getD "Unknown"
      let is_dead : Bool := b.deadBaby = PyVal.bool true
      let inborn : Bool := b.placeOfDelivery = PyVal.str "यह अस्पताल" ∨
        b.placeOfDelivery = PyVal.str "this hospital"
      let location := b.currentLocationOfTheBaby.getD "Unknown"
      let stability := check_kmc_stability b
      let neonatal : Bool :=
        is_dead &&
          match convert_unix_to_datetime pp b.dateOfBirth,
              convert_unix_to_datetime pp b.dateOfDeath with
          | some dob, some dod => decide (⌊(dod - dob) / 86400⌋ ≤ 28)
          | _, _ => false
      let infant : Bool :=
        is_dead &&
          match convert_unix_to_datetime pp b.dateOfBirth,
              convert_unix_to_datetime pp b.dateOfDeath with
          | some dob, some dod => decide (⌊(dod - dob) / 86400⌋ > 28)
          | _, _ => false
      { st with
        processed_uids := st.processed_uids ++ [u]
        dead_uids := if is_dead then st.dead_uids ++ [u] else st.dead_uids
        hospital_totals := bumpCount st.hospital_totals hospital
        hospital_deaths :=
          if is_dead then bumpCount st.hospital_deaths hospital else st.hospital_deaths
        inborn_total := if inborn then st.inborn_total + 1 else st.inborn_total
        inborn_deaths :=
          if inborn ∧ is_dead then st.inborn_deaths + 1 else st.inborn_deaths
        outborn_total := if inborn then st.outborn_total else st.outborn_total + 1
        outborn_deaths :=
          if ¬inborn ∧ is_dead then st.outborn_deaths + 1 else st.outborn_deaths
        location_totals := bumpCount st.location_totals location
        location_deaths :=
          if is_dead then bumpCount st.location_deaths location else st.location_deaths
        kmc_stable_total :=
          if stability = "stable" then st.kmc_stable_total + 1 else st.kmc_stable_total
        kmc_stable_deaths :=
          if stability = "stable" ∧ is_dead then st.kmc_stable_deaths + 1
          else st.kmc_stable_deaths
        kmc_unstable_total :=
          if stability = "stable" then st.kmc_unstable_total else st.kmc_unstable_total + 1
        kmc_unstable_deaths :=
          if stability ≠ "stable" ∧ is_dead then st.kmc_unstable_deaths + 1
          else st.kmc_unstable_deaths
        neonatal_deaths := if neonatal then st.neonatal_deaths + 1 else st.neonatal_deaths
        infant_deaths := if infant then st.infant_deaths + 1 else st.infant_deaths }

/-- The main entity pass of `calculate_death_rates` as a fold over the
de-duplicating step. -/
def deathRatesMainPass (pp : String → Option ℚ) (baby_data : List DRBaby) : DRState :=
  baby_data.foldl (drStep pp) {}

/-- A follow-up entry as read by `calculate_nurse_activity`. -/
structure FUEntry where
  followUpNumber : Option ℚ := Option.none
  date : PyVal := PyVal.none
  followUpDate : PyVal := PyVal.none
  deriving DecidableEq, Repr

/-- The record fields read by `calculate_nurse_activity`
(`dashboard_metrics.py` lines 990-1121). -/
structure NABaby where
  UID : Option String := Option.none
  nurseName : Option String := Option.none
  hospitalName : Option String := Option.none
  followUp : List FUEntry := []
  registrationDate : PyVal := PyVal.none
  source : Option String := Option.none
  discharged : PyVal := PyVal.none
  lastDischargeDate : PyVal := PyVal.none
  dischargeDate : PyVal := PyVal.none
  deriving DecidableEq, Repr

/-- A discharge-collection record as read by `calculate_nurse_activity`. -/
structure NADisch where
  UID : Option String := Option.none
  dischargeNurseName : Option String := Option.none
  hospitalName : Option String := Option.none
  dischargeDate : PyVal := PyVal.none
  deriving DecidableEq, Repr

/-- One `(nurseName, hospital)` counter entry of `nurse_analysis`. -/
structure NAStat where
  nurseName : String
  hospital : String
  followUps : ℕ
  discharges : ℕ
  registrations : ℕ
  deriving DecidableEq, Repr

/-- The three-way `discharge_counts` result of `calculate_nurse_activity`. -/
structure DischargeCounts where
  discharge_collection : ℕ := 0
  baby_collection : ℕ := 0
  babybackup_collection : ℕ := 0
  deriving DecidableEq, Repr

/-- `if key not in nurse_analysis: nurse_analysis[key] = {...}`. -/
def ensureNurse (m : List (String × NAStat)) (key nurse hospital : String) :
    List (String × NAStat) :=
  if (m.lookup key).isSome then m
  else m ++ [(key, ⟨nurse, hospital, 0, 0, 0⟩)]

/-- Increment one counter of the entry at `key`. -/
def bumpNurse (m : List (String × NAStat)) (key : String) (f : NAStat → NAStat) :
    List (String × NAStat) :=
  m.map fun p => if p.1 = key then (p.1, f p.2) else p

/-- The hospital filter `not selected_hospitals or hospital in selected_hospitals`
(an empty selection is falsy and disables the filter). -/
def hospitalSelected (sel : List String) (hospital : String) : Prop :=
  sel = [] ∨ hospital ∈ sel

instance (sel : List String) (h : String) : Decidable (hospitalSelected sel h) := by
  unfold hospitalSelected; infer_instance

/-- The follow-up pass of `calculate_nurse_activity` (lines 1003-1026): one
count per follow-up entry with a recognised number and a parseable date inside
the window, hospital filter applied. -/
def naFollowUpStep (pp : String → Option ℚ) (startD endD : ℤ) (sel : List String)
    (m : List (String × NAStat)) (baby : NABaby) : List (String × NAStat) :=
  if baby.followUp = [] then m
  else
    let nurse := baby.nurseName.getD "Not specified"
    let hospital := baby.hospitalName.getD "Unknown"
    if nurse = "Not specified" then m
    else
      let key := nurse ++ "|" ++ hospital
      let m1 := ensureNurse m key nurse hospital
      baby.followUp.foldl
        (fun acc entry =>
          if (match entry.followUpNumber with
              | some n => decide (n ∈ ([1, 2, 3, 7, 14, 28] : List ℚ))
              | Option.none => false : Bool) then
            match convert_unix_to_datetime pp (pyOrV entry.date entry.followUpDate) with
            | some d =>
              if startD ≤ dateOf d ∧ dateOf d ≤ endD then
                if hospitalSelected sel hospital then
                  bumpNurse acc key fun st => { st with followUps := st.followUps + 1 }
                else acc
              else acc
            | Option.none => acc
          else acc)
        m1

/-- The registration pass of `calculate_nurse_activity` (lines 1029-1045):
one count per baby with a parseable registration date inside the window (no
hospital filter in this pass). -/
def naRegStep (pp : String → Option ℚ) (startD endD : ℤ)
    (m : List (String × NAStat)) (baby : NABaby) : List (String × NAStat) :=
  let nurse := baby.nurseName.getD "Not specified"
  let hospital := baby.hospitalName.getD "Unknown"
  if nurse = "Not specified" then m
  else
    let key := nurse ++ "|" ++ hospital
    let m1 := ensureNurse m key nurse hospital
    match convert_unix_to_datetime pp baby.registrationDate with
    | some d =>
      if startD ≤ dateOf d ∧ dateOf d ≤ endD then
        bumpNurse m1 key fun st => { st with registrations := st.registrations + 1 }
      else m1
    | Option.none => m1

/-- State threaded through the three hierarchical discharge pools. -/
structure NAState where
  analysis : List (String × NAStat)
  processed : List String
  counts : DischargeCounts
  deriving DecidableEq, Repr

/-- The date-window gate of all three discharge pools:
`not discharge_date or start_date <= discharge_date.date() <= end_date` —
a missing/unparseable date bypasses the filter. -/
def dischargeDateOk (startD endD : ℤ) : Option ℚ → Prop
  | Option.none => True
  | some d => startD ≤ dateOf d ∧ dateOf d ≤ endD

instance (startD endD : ℤ) (o : Option ℚ) : Decidable (dischargeDateOk startD endD o) := by
  unfold dischargeDateOk; cases o <;> infer_instance

/-- Pool 1 of the discharge walk (lines 1052-1071): the discharges collection,
counted at `dischargeNurseName` and marking the `UID` as claimed. -/
def naDischargePool1Step (pp : String → Option ℚ) (startD endD : ℤ) (sel : List String)
    (st : NAState) (d : NADisch) : NAState :=
  match d.UID with
  | Option.none => st
  | some u =>
    if u = "" ∨ u ∈ st.processed then st
    else
      let nurse := d.dischargeNurseName.getD "Not specified"
      let hospital := d.hospitalName.getD "Unknown"
      let ddate := convert_unix_to_datetime pp d.dischargeDate
      if nurse = "Not specified" then st
      else if dischargeDateOk startD endD ddate then
        if hospitalSelected sel hospital then
          let key := nurse ++ "|" ++ hospital
          { analysis :=
              bumpNurse (ensureNurse st.analysis key nurse hospital) key
                fun a => { a with discharges := a.discharges + 1 }
            processed := st.processed ++ [u]
            counts := { st.counts with
              discharge_collection := st.counts.discharge_collection + 1 } }
        else st
      else st

/-- Pool 2 of the discharge walk (lines 1074-1095): `source == 'baby'`
records with a truthy `discharged` flag and an unclaimed `UID`, dated by
`lastDischargeDate or dischargeDate`. -/
def naDischargePool2Step (pp : String → Option ℚ) (startD endD : ℤ) (sel : List String)
    (st : NAState) (baby : NABaby) : NAState :=
  if baby.source ≠ some "baby" then st
  else
    match baby.UID with
    | Option.none => st
    | some u =>
      if u = "" ∨ u ∈ st.processed then st
      else if pyTruthy baby.discharged then
        let nurse := baby.nurseName.getD "Not specified"
        let hospital := baby.hospitalName.getD "Unknown"
        let ddate := convert_unix_to_datetime pp
          (pyOrV baby.lastDischargeDate baby.dischargeDate)
        if nurse = "Not specified" then st
        else if dischargeDateOk startD endD ddate then
          if hospitalSelected sel hospital then
            let key := nurse ++ "|" ++ hospital
            { analysis :=
                bumpNurse (ensureNurse st.analysis key nurse hospital) key
                  fun a => { a with discharges := a.discharges + 1 }
              processed := st.processed ++ [u]
              counts := { st.counts with
                baby_collection := st.counts.baby_collection + 1 } }
          else st
        else st
      else st

/-- Pool 3 of the discharge walk (lines 1098-1119): `source == 'babyBackUp'`
records, dated by `dischargeDate or lastDischargeDate`. -/
def naDischargePool3Step (pp : String → Option ℚ) (startD endD : ℤ) (sel : List String)
    (st : NAState) (baby : NABaby) : NAState :=
  if baby.source ≠ some "babyBackUp" then st
  else
    match baby.UID with
    | Option.none => st
    | some u =>
      if u = "" ∨ u ∈ st.processed then st
      else if pyTruthy baby.discharged then
        let nurse := baby.nurseName.getD "Not specified"
        let hospital := baby.hospitalName.getD "Unknown"
        let ddate := convert_unix_to_datetime pp
          (pyOrV baby.dischargeDate baby.lastDischargeDate)
        if nurse = "Not specified" then st
        else if dischargeDateOk startD endD ddate then
          if hospitalSelected sel hospital then
            let key := nurse ++ "|" ++ hospital
            { analysis :=
                bumpNurse (ensureNurse st.analysis key nurse hospital) key
                  fun a => { a with discharges := a.discharges + 1 }
              processed := st.processed ++ [u]
              counts := { st.counts with
                babybackup_collection := st.counts.babybackup_collection + 1 } }
          else st
        else st
      else st

/-- Embedding of `calculate_nurse_activity` (`dashboard_metrics.py` lines
990-1121): follow-up pass, registration pass, then the three-pool
hierarchical discharge walk sharing one claimed-`UID` set. -/
def calculate_nurse_activity (pp : String → Option ℚ) (baby_data : List NABaby)
    (discharge_data : List NADisch) (startD endD : ℤ) (sel : List String) :
    List (String × NAStat) × DischargeCounts :=
  let m1 := baby_data.foldl (naFollowUpStep pp startD endD sel) []
  let m2 := baby_data.foldl (naRegStep pp startD endD) m1
  let st0 : NAState := ⟨m2, [], {}⟩
  let st1 := discharge_data.foldl (naDischargePool1Step pp startD endD sel) st0
  let st2 := baby_data.foldl (naDischargePool2Step pp startD endD sel) st1
  let st3 := baby_data.foldl (naDischargePool3Step pp startD endD sel) st2
  (st3.analysis, st3.counts)

/-- Total follow-up count across all nurse entries. -/
def sumFollowUps (m : List (String × NAStat)) : ℕ :=
  (m.map fun p => p.2.followUps).sum

/-- Total registration count across all nurse entries. -/
def sumRegistrations (m : List (String × NAStat)) : ℕ :=
  (m.map fun p => p.2.registrations).sum

/-- Total discharge count across all nurse entries. -/
def sumDischarges (m : List (String × NAStat)) : ℕ :=
  (m.map fun p => p.2.discharges).sum

/-- The birth-to-registration difference in hours, exactly as
`calculate_registration_timeliness` derives it, when both timestamps
normalize. -/
def regTimeDiff (pp : String → Option ℚ) (b : RegBaby) : Option ℚ :=
  match convert_unix_to_datetime pp b.dateOfBirth,
      convert_unix_to_datetime pp
        (pyOrV b.registrationDate b.registrationDataTypeRegistrationDate) with
  | some bt, some rt => some ((rt - bt) / 3600)
  | _, _ => Option.none

/-- Membership in the ≤24h bucket: a parseable difference with
`0 ≤ diff ≤ 24`. -/
def bucket24 (pp : String → Option ℚ) (b : RegBaby) : Bool :=
  match regTimeDiff pp b with
  | some d => decide (0 ≤ d ∧ d ≤ 24)
  | Option.none => false

/-- Membership in the ≤12h bucket: a parseable difference with
`0 ≤ diff ≤ 12`. -/
def bucket12 (pp : String → Option ℚ) (b : RegBaby) : Bool :=
  match regTimeDiff pp b with
  | some d => decide (0 ≤ d ∧ d ≤ 12)
  | Option.none => false

/-- The sandbox eligibility disjunction the code actually computes: a truthy
enrolled flag, or a truthy weight parsing below 2500, or a truthy gestational
age parsing at most 36. -/
def amendedSandboxEligible (b : SandboxBaby) : Bool :=
  pyTruthy b.babyInProgram ||
    (pyTruthy b.birthWeight &&
      match pyFloat b.birthWeight with
      | some w => decide (w < 2500)
      | Option.none => false) ||
    (pyTruthy b.gestationalAge &&
      match pyFloat b.gestationalAge with
      | some g => decide (g ≤ 36)
      | Option.none => false)

/-- A concrete inborn record (5 h birth-to-registration) carrying a uid, used
to exhibit duplicate-sensitivity of `calculate_registration_timeliness`. -/
def dupRegRecord : RegBaby :=
  { UID := some "u1"
    placeOfDelivery := PyVal.str "this hospital"
    dateOfBirth := PyVal.num 1700000000
    registrationDate := PyVal.num 1700018000 }

/-- A concrete record with one 60-minute KMC day, used to exhibit
duplicate-sensitivity of `calculate_average_kmc_by_location`. -/
def dupAvgRecord : AvgBaby :=
  { UID := some "u1"
    hospitalName := some "H"
    currentLocationOfTheBaby := some "L"
    dateOfBirth := PyVal.num 1700000000
    age_days := [{ ageDayDate := PyVal.num 1700000000, totalKMCToday := some 60 }] }

end Metrics

/-! ## Helper lemmas shared by several claim theorems -/

/-- The common shape of all seven prioritized field resolvers agrees with the
claimed priority rule. -/
theorem prioritizedShapeEq (dv bv : Option String) :
    (if dv.getD "N/A" = "N/A" then bv.getD "N/A" else dv.getD "N/A") =
      DashboardUtils.claimedPriority dv bv := by
  cases dv with
  | none => simp [DashboardUtils.claimedPriority]
  | some v =>
    by_cases hv : v = "N/A" <;> simp [DashboardUtils.claimedPriority, hv]

/-! ## Claim theorems -/

/-- **C4.** For every input record and every source family,
`categorize_discharge` returns exactly one of the five keys
{critical_home, stable_home, critical_referred, died, other} — never absent,
never a raw input string, and never an exception — and on the three real
source families it follows the claimed lower-cased mapping table, with
`type = died` mapping to `died` regardless of status. -/
theorem categorize_discharge_exhaustive_table :
    ∀ (r : DashboardUtils.DischargeFields) (source : String),
      DashboardUtils.categorize_discharge r source ∈
        ["critical_home", "stable_home", "critical_referred", "died", "other"] ∧
      DashboardUtils.categorize_discharge r "discharges" =
        DashboardUtils.claimedCategoryTable
          ((r.dischargeStatus.getD "").toLower) ((r.dischargeType.getD "").toLower) ∧
      DashboardUtils.categorize_discharge r "baby" =
        DashboardUtils.claimedCategoryTable
          ((r.lastDischargeStatus.getD "").toLower) ((r.lastDischargeType.getD "").toLower) ∧
      DashboardUtils.categorize_discharge r "babyBackUp" =
        DashboardUtils.claimedCategoryTable
          ((r.lastDischargeStatus.getD "").toLower) ((r.lastDischargeType.getD "").toLower) := by
  intro r source
  refine ⟨?_, ?_, ?_, ?_⟩
  · unfold DashboardUtils.categorize_discharge
    split_ifs <;> (try decide) <;> dsimp only <;> split_ifs <;> decide
  · rfl
  · rfl
  · rfl

/-- **C5.** Every one of the seven shadowed-field resolvers follows the
claimed priority: the matched discharge record's field when present and not
the sentinel `"N/A"`, else the patient record's legacy-named field, else
`"N/A"`.  In particular the discharge value wins when both exist, and absence
of a matched discharge record falls back to the embedded value. -/
theorem prioritized_resolvers_follow_priority :
    ∀ (baby : DashboardUtils.PrioBaby) (md : Option DashboardUtils.PrioDischarge),
      DashboardUtils.get_prioritized_discharge_weight baby md =
        DashboardUtils.claimedPriority (md.bind fun d => d.dischargeWeight) baby.dischargeWeight ∧
      DashboardUtils.get_prioritized_discharge_temperature baby md =
        DashboardUtils.claimedPriority (md.bind fun d => d.dischargeTemperature) baby.babyTemperatureDischarge2 ∧
      DashboardUtils.get_prioritized_discharge_rr baby md =
        DashboardUtils.claimedPriority (md.bind fun d => d.dischargeRR) baby.babyRRdischarge ∧
      DashboardUtils.get_prioritized_feed_mode baby md =
        DashboardUtils.claimedPriority (md.bind fun d => d.feedMode) baby.whatFeedMode ∧
      DashboardUtils.get_prioritized_baby_health baby md =
        DashboardUtils.claimedPriority (md.bind fun d => d.dischargeDangerSigns) baby.howsBabyHealth ∧
      DashboardUtils.get_prioritized_critical_reasons baby md =
        DashboardUtils.claimedPriority (md.bind fun d => d.criticalReasons) baby.criticalReasons ∧
      DashboardUtils.get_prioritized_discharge_reason baby md =
        DashboardUtils.claimedPriority (md.bind fun d => d.dischargeReason) baby.dischargeReason := by
  intro baby md
  cases md with
  | none =>
    refine ⟨?_, ?_, ?_, ?_, ?_, ?_, ?_⟩ <;>
      simp [DashboardUtils.get_prioritized_discharge_weight,
        DashboardUtils.get_prioritized_discharge_temperature,
        DashboardUtils.get_prioritized_discharge_rr,
        DashboardUtils.get_prioritized_feed_mode,
        DashboardUtils.get_prioritized_baby_health,
        DashboardUtils.get_prioritized_critical_reasons,
        DashboardUtils.get_prioritized_discharge_reason,
        DashboardUtils.claimedPriority]
  | some d =>
    refine ⟨?_, ?_, ?_, ?_, ?_, ?_, ?_⟩ <;>
      first
      | exact prioritizedShapeEq d.dischargeWeight baby.dischargeWeight
      | exact prioritizedShapeEq d.dischargeTemperature baby.babyTemperatureDischarge2
      | exact prioritizedShapeEq d.dischargeRR baby.babyRRdischarge
      | exact prioritizedShapeEq d.feedMode baby.whatFeedMode
      | exact prioritizedShapeEq d.dischargeDangerSigns baby.howsBabyHealth
      | exact prioritizedShapeEq d.criticalReasons baby.criticalReasons
      | exact prioritizedShapeEq d.dischargeReason baby.dischargeReason

/-- **C6.** In the per-day verification-status resolution of
`calculate_kmc_verification_monitoring`, a comment that is non-empty after
stripping whitespace forces status `"incorrect"` regardless of the
`filledCorrectly`/`kmcfilledcorrectly` flags, and an empty comment with no
flags set resolves to the `"not_verified"` default. -/
theorem kmc_verification_comment_precedence :
    ∀ (fc kfc : PyVal) (c : String),
      (pyStrip c ≠ "" →
        KmcDashboard.kmcVerificationStatus ⟨fc, kfc, c⟩ = "incorrect") ∧
      KmcDashboard.kmcVerificationStatus ⟨PyVal.none, PyVal.none, ""⟩ = "not_verified" := by
  intro fc kfc c
  constructor
  · intro h
    have hc : c ≠ "" := by
      intro he
      rw [he] at h
      exact h (by decide)
    unfold KmcDashboard.kmcVerificationStatus
    rw [if_pos ⟨hc, h⟩]
  · rfl

/-- Witness for C6: a comment `"needs review"` with both verification flags
set to `True` still resolves to `"incorrect"`. -/
theorem kmc_verification_comment_precedence_witness :
    (pyStrip "needs review" ≠ "") ∧
      KmcDashboard.kmcVerificationStatus
        ⟨PyVal.bool true, PyVal.bool true, "needs review"⟩ = "incorrect" :=
  ⟨by decide,
    (kmc_verification_comment_precedence (PyVal.bool true) (PyVal.bool true)
      "needs review").1 (by decide)⟩

/-- **C7 (amended).** `convert_unix_to_datetime` on a *nonzero* numeric input
treats it as UTC epoch seconds when ≤ 10^12 and as epoch milliseconds
otherwise, shifting the instant by the fixed offset UTC+5:30, provided the
shifted instant is representable (years 1–9999); numeric inputs outside that
range, the number 0, `None`, the empty string, and unparseable strings all
yield absent, never an exception and never epoch-start. -/
theorem convert_unix_behaviour_amended :
    ∀ (pp : String → Option ℚ),
      (∀ q : ℚ, q ≠ 0 → q ≤ 10 ^ 12 →
        minEpochSeconds ≤ q → q + istOffsetSeconds < maxEpochSeconds →
        convert_unix_to_datetime pp (PyVal.num q) = some (q + istOffsetSeconds)) ∧
      (∀ q : ℚ, q > 10 ^ 12 →
        minEpochSeconds ≤ q / 1000 → q / 1000 + istOffsetSeconds < maxEpochSeconds →
        convert_unix_to_datetime pp (PyVal.num q) = some (q / 1000 + istOffsetSeconds)) ∧
      (∀ q : ℚ, q ≤ 10 ^ 12 →
        (q < minEpochSeconds ∨ maxEpochSeconds ≤ q + istOffsetSeconds) →
        convert_unix_to_datetime pp (PyVal.num q) = Option.none) ∧
      convert_unix_to_datetime pp PyVal.none = Option.none ∧
      convert_unix_to_datetime pp (PyVal.num 0) = Option.none ∧
      convert_unix_to_datetime pp (PyVal.str "") = Option.none ∧
      (∀ st : String, st ≠ "" → convert_unix_to_datetime pp (PyVal.str st) = pp st) := by
  intro pp
  refine ⟨?_, ?_, ?_, rfl, by simp [convert_unix_to_datetime, pyTruthy],
    by simp [convert_unix_to_datetime, pyTruthy], ?_⟩
  · intro q hq hle hmin hmax
    unfold convert_unix_to_datetime
    rw [if_neg (by simp [pyTruthy, hq])]
    have hnot : ¬ q > 10 ^ 12 := not_lt.mpr hle
    simp only [hnot, if_false]
    rw [if_pos ⟨hmin, hmax⟩]
  · intro q hgt hmin hmax
    have hq : q ≠ 0 := by positivity
    unfold convert_unix_to_datetime
    rw [if_neg (by simp [pyTruthy, hq])]
    simp only [hgt, if_true]
    rw [if_pos ⟨hmin, hmax⟩]
  · intro q hle hout
    by_cases hq : q = 0
    · subst hq
      simp [convert_unix_to_datetime, pyTruthy]
    · unfold convert_unix_to_datetime
      rw [if_neg (by simp [pyTruthy, hq])]
      have hnot : ¬ q > 10 ^ 12 := not_lt.mpr hle
      simp only [hnot, if_false]
      rw [if_neg]
      rintro ⟨h1, h2⟩
      rcases hout with h | h
      · exact absurd h1 (not_le.mpr h)
      · exact absurd h2 (not_lt.mpr h)
  · intro st hst
    unfold convert_unix_to_datetime
    rw [if_neg (by simp [pyTruthy, hst])]

/-- Witness for C7 (amended): the in-range epoch value 1 700 000 000 seconds
converts to 1 700 000 000 + 19 800 seconds of naive IST time. -/
theorem convert_unix_behaviour_amended_witness :
    ((1700000000 : ℚ) ≠ 0 ∧ (1700000000 : ℚ) ≤ 10 ^ 12 ∧
      minEpochSeconds ≤ (1700000000 : ℚ) ∧
      (1700000000 : ℚ) + istOffsetSeconds < maxEpochSeconds) ∧
    convert_unix_to_datetime ppNone (PyVal.num 1700000000) = some 1700019800 := by
  constructor
  · refine ⟨by norm_num, by norm_num, ?_, ?_⟩ <;>
      norm_num [minEpochSeconds, istOffsetSeconds, maxEpochSeconds]
  · have h := ((convert_unix_behaviour_amended ppNone).1) 1700000000 (by norm_num)
      (by norm_num) (by norm_num [minEpochSeconds])
      (by norm_num [istOffsetSeconds, maxEpochSeconds])
    rw [h]
    norm_num [istOffsetSeconds]

/-- Counterexample to C7 as stated: the integer 0 is ≤ 10^12, so the claim
makes it epoch-start in seconds (a present result), and −10^15 is likewise
≤ 10^12, so the claim makes it a (far-past) seconds value; the code returns
absent for both (falsy input, and out-of-range `datetime.fromtimestamp`). -/
theorem convert_unix_claim_counterexample :
    convert_unix_to_datetime ppNone (PyVal.num 0) = Option.none ∧
    convert_unix_to_datetime ppNone (PyVal.num (-(10 ^ 15))) = Option.none ∧
    (0 : ℚ) ≤ 10 ^ 12 ∧ (-(10 ^ 15) : ℚ) ≤ 10 ^ 12 := by
  refine ⟨by decide, by decide, by norm_num, by norm_num⟩

/-- One registration-timeliness loop step adds exactly the two bucket
indicators of the record. -/
theorem regCountsStepEq (pp : String → Option ℚ) (acc : ℕ × ℕ) (b : Metrics.RegBaby) :
    Metrics.regCountsStep pp acc b =
      (acc.1 + (if Metrics.bucket24 pp b then 1 else 0),
       acc.2 + (if Metrics.bucket12 pp b then 1 else 0)) := by
  unfold Metrics.regCountsStep Metrics.bucket24 Metrics.bucket12 Metrics.regTimeDiff
  rcases hbt : convert_unix_to_datetime pp b.dateOfBirth with _ | bt
  · simp
  rcases hrt : convert_unix_to_datetime pp
      (pyOrV b.registrationDate b.registrationDataTypeRegistrationDate) with _ | rt
  · simp
  set d : ℚ := (rt - bt) / 3600 with hd
  by_cases h24 : 0 ≤ d ∧ d ≤ 24
  · by_cases h12 : d ≤ 12
    · have h12' : 0 ≤ d ∧ d ≤ 12 := ⟨h24.1, h12⟩
      simp [h24, h12, h12']
    · have h12' : ¬(0 ≤ d ∧ d ≤ 12) := fun hh => h12 hh.2
      simp [h24, h12, h12']
  · have h12' : ¬(0 ≤ d ∧ d ≤ 12) := fun hh => h24 ⟨hh.1, by linarith [hh.2]⟩
    simp [h24, h12']

/-- The registration-timeliness counting fold is the pair of bucket counts. -/
theorem regCountsFoldEq (pp : String → Option ℚ) :
    ∀ (l : List Metrics.RegBaby) (acc : ℕ × ℕ),
      l.foldl (Metrics.regCountsStep pp) acc =
        (acc.1 + l.countP (Metrics.bucket24 pp), acc.2 + l.countP (Metrics.bucket12 pp)) := by
  intro l
  induction l with
  | nil => intro acc; simp
  | cons b t ih =>
    intro acc
    rw [List.foldl_cons, ih, List.countP_cons, List.countP_cons, regCountsStepEq]
    simp only [Prod.mk.injEq]
    constructor <;> omega

/-- **C2 (amended).** In `calculate_registration_timeliness`, among inborn
entities the ≤24h bucket counts exactly those with a parseable difference
satisfying `0 ≤ diff ≤ 24` and the ≤12h bucket exactly those with
`0 ≤ diff ≤ 12` — boundaries inclusive, a ≤12h entity always counted in the
≤24h bucket too — while *negative* differences (registration before birth)
are excluded from both buckets rather than included. -/
theorem registration_bucketing_amended :
    ∀ (pp : String → Option ℚ) (l : List Metrics.RegBaby),
      (Metrics.calculate_registration_timeliness pp l).within_24h_count =
        (l.filter Metrics.isInbornReg).countP (Metrics.bucket24 pp) ∧
      (Metrics.calculate_registration_timeliness pp l).within_12h_count =
        (l.filter Metrics.isInbornReg).countP (Metrics.bucket12 pp) ∧
      (∀ b, Metrics.bucket12 pp b = true → Metrics.bucket24 pp b = true) := by
  intro pp l
  refine ⟨?_, ?_, ?_⟩
  · show (List.foldl (Metrics.regCountsStep pp) (0, 0)
      (List.filter Metrics.isInbornReg l)).1 = _
    rw [regCountsFoldEq]
    simp
  · show (List.foldl (Metrics.regCountsStep pp) (0, 0)
      (List.filter Metrics.isInbornReg l)).2 = _
    rw [regCountsFoldEq]
    simp
  · intro b hb
    unfold Metrics.bucket12 at hb
    unfold Metrics.bucket24
    rcases h : Metrics.regTimeDiff pp b with _ | d
    · rw [h] at hb; simp at hb
    · rw [h] at hb
      simp only [decide_eq_true_eq] at hb ⊢
      exact ⟨hb.1, by linarith [hb.2]⟩

/-- Witness for C2 (amended): a record 5 hours between birth and registration
is in the ≤12h bucket, and the theorem places it in the ≤24h bucket too. -/
theorem registration_bucketing_amended_witness :
    Metrics.bucket12 ppNone
        { placeOfDelivery := PyVal.str "this hospital",
          dateOfBirth := PyVal.num 1700000000,
          registrationDate := PyVal.num 1700018000 } = true ∧
      Metrics.bucket24 ppNone
        { placeOfDelivery := PyVal.str "this hospital",
          dateOfBirth := PyVal.num 1700000000,
          registrationDate := PyVal.num 1700018000 } = true :=
  ⟨by norm_num [Metrics.bucket12, Metrics.regTimeDiff, convert_unix_to_datetime,
      pyTruthy, pyOrV, istOffsetSeconds, minEpochSeconds, maxEpochSeconds],
    (registration_bucketing_amended ppNone []).2.2
      { placeOfDelivery := PyVal.str "this hospital",
        dateOfBirth := PyVal.num 1700000000,
        registrationDate := PyVal.num 1700018000 }
      (by norm_num [Metrics.bucket12, Metrics.regTimeDiff, convert_unix_to_datetime,
        pyTruthy, pyOrV, istOffsetSeconds, minEpochSeconds, maxEpochSeconds])⟩

/-- Counterexample to C2 as stated: an inborn record registered one hour
*before* birth (difference −1 h) is counted in neither bucket, although the
claim says negative differences are included in both as-is. -/
theorem registration_negative_diff_counterexample :
    Metrics.regTimeDiff ppNone
        { placeOfDelivery := PyVal.str "this hospital",
          dateOfBirth := PyVal.num 1700000000,
          registrationDate := PyVal.num 1699996400 } = some (-1) ∧
    (Metrics.calculate_registration_timeliness ppNone
        [{ placeOfDelivery := PyVal.str "this hospital",
           dateOfBirth := PyVal.num 1700000000,
           registrationDate := PyVal.num 1699996400 }]).total_inborn = 1 ∧
    (Metrics.calculate_registration_timeliness ppNone
        [{ placeOfDelivery := PyVal.str "this hospital",
           dateOfBirth := PyVal.num 1700000000,
           registrationDate := PyVal.num 1699996400 }]).within_24h_count = 0 ∧
    (Metrics.calculate_registration_timeliness ppNone
        [{ placeOfDelivery := PyVal.str "this hospital",
           dateOfBirth := PyVal.num 1700000000,
           registrationDate := PyVal.num 1699996400 }]).within_12h_count = 0 := by
  refine ⟨?_, ?_, ?_, ?_⟩ <;>
    norm_num [Metrics.regTimeDiff, Metrics.calculate_registration_timeliness,
      Metrics.regCountsStep, Metrics.isInbornReg, convert_unix_to_datetime,
      pyTruthy, pyOrV, istOffsetSeconds, minEpochSeconds, maxEpochSeconds]

/-- **C8.** Zero-denominator safety: with no inborn entities the registration
timeliness percentages are exactly 0, and the sandbox `safe_div` returns
exactly 0 on a zero denominator. -/
theorem zero_denominator_safety :
    (∀ (pp : String → Option ℚ) (l : List Metrics.RegBaby),
      (∀ b ∈ l, Metrics.isInbornReg b = false) →
        (Metrics.calculate_registration_timeliness pp l).total_inborn = 0 ∧
        (Metrics.calculate_registration_timeliness pp l).within_24h_percentage = 0 ∧
        (Metrics.calculate_registration_timeliness pp l).within_12h_percentage = 0) ∧
    (∀ n : ℚ, Metrics.safe_div n 0 = 0) := by
  constructor
  · intro pp l h
    have hfil : l.filter Metrics.isInbornReg = [] := by
      rw [List.filter_eq_nil_iff]
      intro b hb
      simp [h b hb]
    unfold Metrics.calculate_registration_timeliness
    rw [hfil]
    simp
  · intro n
    simp [Metrics.safe_div]

/-- Witness for C8: a singleton non-inborn record yields zero percentages,
and `safe_div 5 0 = 0`. -/
theorem zero_denominator_safety_witness :
    (∀ b ∈ ([{}] : List Metrics.RegBaby), Metrics.isInbornReg b = false) ∧
    (Metrics.calculate_registration_timeliness ppNone
      ([{}] : List Metrics.RegBaby)).within_24h_percentage = 0 ∧
    Metrics.safe_div 5 0 = 0 :=
  ⟨by decide,
    ((zero_denominator_safety.1 ppNone ([{}] : List Metrics.RegBaby)) (by decide)).2.1,
    zero_denominator_safety.2 5⟩

/-- **C9 (amended).** In both sandbox metric functions a patient is eligible
iff the enrolled-in-program flag is *truthy*, or a *truthy* birth-weight value
parses to a number < 2500, or a *truthy* gestational-age value parses to a
number ≤ 36; falsy values (0, empty, absent) and parse failures do not
satisfy their sub-condition. -/
theorem sandbox_eligibility_amended :
    ∀ b : Metrics.SandboxBaby,
      Metrics.sandboxEligibleSystem b = Metrics.amendedSandboxEligible b ∧
      Metrics.sandboxEligibleProgram b = Metrics.amendedSandboxEligible b := by
  intro b
  refine ⟨?_, ?_⟩
  · unfold Metrics.sandboxEligibleSystem Metrics.amendedSandboxEligible
    cases hbp : pyTruthy b.babyInProgram <;>
      cases hbw : pyTruthy b.birthWeight <;>
        cases hga : pyTruthy b.gestationalAge <;>
          rcases hw : pyFloat b.birthWeight with _ | w <;>
            rcases hg : pyFloat b.gestationalAge with _ | g <;>
              (simp [hbp, hbw, hga, hw, hg]; try split_ifs) <;>
                first
                | rfl
                | simp_all
                | exact Bool.or_comm _ _
  · unfold Metrics.sandboxEligibleProgram Metrics.amendedSandboxEligible
    cases hbp : pyTruthy b.babyInProgram <;>
      cases hbw : pyTruthy b.birthWeight <;>
        cases hga : pyTruthy b.gestationalAge <;>
          rcases hw : pyFloat b.birthWeight with _ | w <;>
            rcases hg : pyFloat b.gestationalAge with _ | g <;>
              (simp [hbp, hbw, hga, hw, hg]; try split_ifs) <;>
                first
                | rfl
                | simp_all
                | exact Bool.or_comm _ _

/-- Counterexample to C9 as stated: a record with numeric birth weight 0
parses to a number < 2500 (so the claim calls it eligible) but both sandbox
filters skip the falsy weight and return ineligible; and a record whose
enrolled flag is the truthy string `"no"` (not the boolean true) is eligible
in the code though the claim calls it ineligible. -/
theorem sandbox_eligibility_counterexample :
    Metrics.claimedSandboxEligible { birthWeight := PyVal.num 0 } = true ∧
    Metrics.sandboxEligibleSystem { birthWeight := PyVal.num 0 } = false ∧
    Metrics.sandboxEligibleProgram { birthWeight := PyVal.num 0 } = false ∧
    Metrics.claimedSandboxEligible { babyInProgram := PyVal.str "no" } = false ∧
    Metrics.sandboxEligibleSystem { babyInProgram := PyVal.str "no" } = true ∧
    Metrics.sandboxEligibleProgram { babyInProgram := PyVal.str "no" } = true := by
  decide

/-- **C3.** In both sandbox metric functions, when a baby has a positive
day-aggregate KMC total for a calendar day and the session pass has
accumulated a session-derived total for the same `(baby, day)` key, the
reconciled per-day total is the *maximum* of the session-derived total and the
day-aggregate total (in hours), never their sum. -/
theorem kmc_day_total_max_not_sum :
    ∀ (pp : String → Option ℚ) (sessions : List Metrics.KmcSession) (u : String)
      (t : PyVal) (a : ℚ) (dt : ℚ),
      u ≠ "" → a > 0 → pyTruthy t = true →
      convert_unix_to_datetime pp t = some dt →
      (∃ m, Metrics.daily_kmc_map_system pp sessions
          [{ UID := some u,
             age_days := [{ ageDayDate := t, totalKMCToday := some a }] }] = some m ∧
        m (u, dateOf dt) =
          max (Metrics.buildSessionDayMapSystem pp sessions (u, dateOf dt)) (a / 60)) ∧
      (∃ m, Metrics.kmc_per_day_program pp sessions
          [{ UID := some u,
             age_days := [{ ageDayDate := t, totalKMCToday := some a }] }] = some m ∧
        m (u, dateOf dt) =
          max (Metrics.buildSessionDayMapProgram pp sessions (u, dateOf dt)) (a / 60)) := by
  intro pp sessions u t a dt hu ha ht hconv
  constructor
  · refine ⟨Metrics.mapUpdate (Metrics.buildSessionDayMapSystem pp sessions) (u, dateOf dt)
        (max (Metrics.buildSessionDayMapSystem pp sessions (u, dateOf dt)) (a / 60)),
      ?_, ?_⟩
    · simp [Metrics.daily_kmc_map_system, Metrics.babyAgeDaysStep, hu,
        Metrics.ageDayMaxStep, ha, ht, hconv]
    · simp [Metrics.mapUpdate]
  · refine ⟨Metrics.mapUpdate (Metrics.buildSessionDayMapProgram pp sessions) (u, dateOf dt)
        (max (Metrics.buildSessionDayMapProgram pp sessions (u, dateOf dt)) (a / 60)),
      ?_, ?_⟩
    · simp [Metrics.kmc_per_day_program, Metrics.babyAgeDaysStep, hu,
        Metrics.ageDayMaxStep, ha, ht, hconv]
    · simp [Metrics.mapUpdate]

/-- Witness for C3: a 40-minute day aggregate and a 90-minute session on the
same day reconcile to max(1.5 h, 2/3 h) = 1.5 h — 90 minutes, not 130. -/
theorem kmc_day_total_max_not_sum_witness :
    (("b1" : String) ≠ "" ∧ (40 : ℚ) > 0 ∧ pyTruthy (PyVal.num 1700000000) = true ∧
      convert_unix_to_datetime ppNone (PyVal.num 1700000000) = some 1700019800) ∧
    Metrics.buildSessionDayMapSystem ppNone
        [{ idBaby := some "b1", kmcStart := PyVal.num 1700000000, kmcDuration := some 90 }]
        ("b1", dateOf 1700019800) = 3 / 2 ∧
    (∃ m, Metrics.daily_kmc_map_system ppNone
        [{ idBaby := some "b1", kmcStart := PyVal.num 1700000000, kmcDuration := some 90 }]
        [{ UID := some "b1",
           age_days := [{ ageDayDate := PyVal.num 1700000000, totalKMCToday := some 40 }] }] =
        some m ∧
      m ("b1", dateOf 1700019800) =
        max (Metrics.buildSessionDayMapSystem ppNone
          [{ idBaby := some "b1", kmcStart := PyVal.num 1700000000, kmcDuration := some 90 }]
          ("b1", dateOf 1700019800)) (40 / 60)) := by
  refine ⟨⟨by decide, by norm_num, by decide, ?_⟩, ?_, ?_⟩
  · norm_num [convert_unix_to_datetime, pyTruthy, istOffsetSeconds,
      minEpochSeconds, maxEpochSeconds]
  · norm_num [Metrics.buildSessionDayMapSystem, Metrics.sessionDayMapStep,
      Metrics.mapUpdate, pyOrS, truthyStr, convert_unix_to_datetime, pyTruthy,
      istOffsetSeconds, minEpochSeconds, maxEpochSeconds,
      (by decide : (("b1" : String) = "") = False)]
  · exact (kmc_day_total_max_not_sum ppNone
      [{ idBaby := some "b1", kmcStart := PyVal.num 1700000000, kmcDuration := some 90 }]
      "b1" (PyVal.num 1700000000) 40 1700019800 (by decide) (by norm_num) (by decide)
      (by norm_num [convert_unix_to_datetime, pyTruthy, istOffsetSeconds,
        minEpochSeconds, maxEpochSeconds])).1

/-- A record whose truthy uid is already processed leaves the death-rates
state unchanged. -/
theorem drStep_skip (pp : String → Option ℚ) (st : Metrics.DRState)
    (b : Metrics.DRBaby) (u : String) (hu : b.UID = some u)
    (hmem : u ∈ st.processed_uids) :
    Metrics.drStep pp st b = st := by
  unfold Metrics.drStep
  rw [hu]
  exact if_pos (Or.inr hmem)

/-- The processed-uid set of the death-rates pass only grows. -/
theorem drStep_processed_mono (pp : String → Option ℚ) (st : Metrics.DRState)
    (b : Metrics.DRBaby) {u : String} (hu : u ∈ st.processed_uids) :
    u ∈ (Metrics.drStep pp st b).processed_uids := by
  unfold Metrics.drStep
  rcases b.UID with _ | v
  · exact hu
  · dsimp only
    by_cases h : v = "" ∨ v ∈ st.processed_uids
    · rw [if_pos h]; exact hu
    · rw [if_neg h]; simp [hu]

/-- Fold version of `drStep_processed_mono`. -/
theorem drFold_processed_mono (pp : String → Option ℚ) :
    ∀ (l : List Metrics.DRBaby) (st : Metrics.DRState) {u : String},
      u ∈ st.processed_uids → u ∈ (l.foldl (Metrics.drStep pp) st).processed_uids := by
  intro l
  induction l with
  | nil => intro st u hu; exact hu
  | cons b t ih => intro st u hu; exact ih _ (drStep_processed_mono pp st b hu)

/-- Processing a record with a truthy uid records that uid. -/
theorem drStep_adds_uid (pp : String → Option ℚ) (st : Metrics.DRState)
    (b : Metrics.DRBaby) (u : String) (hu : b.UID = some u) (hne : u ≠ "") :
    u ∈ (Metrics.drStep pp st b).processed_uids := by
  unfold Metrics.drStep
  rw [hu]
  dsimp only
  by_cases h : u = "" ∨ u ∈ st.processed_uids
  · rw [if_pos h]
    rcases h with h1 | h2
    · exact absurd h1 hne
    · exact h2
  · rw [if_neg h]
    simp

/-- After folding over a list containing a record with truthy uid `u`, `u` is
in the processed set. -/
theorem drFold_records (pp : String → Option ℚ) :
    ∀ (l : List Metrics.DRBaby) (st : Metrics.DRState) (r : Metrics.DRBaby) (u : String),
      r ∈ l → r.UID = some u → u ≠ "" →
      u ∈ (l.foldl (Metrics.drStep pp) st).processed_uids := by
  intro l
  induction l with
  | nil => intro st r u h; cases h
  | cons b t ih =>
    intro st r u hmem huid hne
    rcases List.mem_cons.mp hmem with rfl | ht
    · exact drFold_processed_mono pp t _ (drStep_adds_uid pp st r u huid hne)
    · exact ih _ r u ht huid hne

/-- **C1 (amended).** First-seen-wins de-duplication holds only in aggregator
scans that maintain a processed-uid set: in the main entity pass of
`calculate_death_rates`, a record whose truthy uid already occurred earlier
contributes nothing, so dropping it leaves the pass's entire output unchanged.
`calculate_registration_timeliness` applies no de-duplication at all: its
counters are additive over record occurrences, so duplicate-uid records are
counted once per occurrence (and likewise `calculate_average_kmc_by_location`
counts duplicates each time, as the counterexample shows concretely). -/
theorem dedup_only_in_tracked_scans_amended :
    (∀ (pp : String → Option ℚ) (l₁ : List Metrics.DRBaby) (r : Metrics.DRBaby)
        (l₂ : List Metrics.DRBaby) (u : String),
      r.UID = some u → u ≠ "" → (∃ r' ∈ l₁, r'.UID = some u) →
      Metrics.deathRatesMainPass pp (l₁ ++ r :: l₂) =
        Metrics.deathRatesMainPass pp (l₁ ++ l₂)) ∧
    (∀ (pp : String → Option ℚ) (l₁ l₂ : List Metrics.RegBaby),
      (Metrics.calculate_registration_timeliness pp (l₁ ++ l₂)).total_inborn =
        (Metrics.calculate_registration_timeliness pp l₁).total_inborn +
          (Metrics.calculate_registration_timeliness pp l₂).total_inborn ∧
      (Metrics.calculate_registration_timeliness pp (l₁ ++ l₂)).within_24h_count =
        (Metrics.calculate_registration_timeliness pp l₁).within_24h_count +
          (Metrics.calculate_registration_timeliness pp l₂).within_24h_count ∧
      (Metrics.calculate_registration_timeliness pp (l₁ ++ l₂)).within_12h_count =
        (Metrics.calculate_registration_timeliness pp l₁).within_12h_count +
          (Metrics.calculate_registration_timeliness pp l₂).within_12h_count) := by
  constructor
  · rintro pp l₁ r l₂ u huid hne ⟨r', hr'mem, hr'uid⟩
    unfold Metrics.deathRatesMainPass
    rw [List.foldl_append, List.foldl_append, List.foldl_cons,
      drStep_skip pp _ r u huid (drFold_records pp l₁ {} r' u hr'mem hr'uid hne)]
  · intro pp l₁ l₂
    refine ⟨?_, ?_, ?_⟩
    · show (List.filter Metrics.isInbornReg (l₁ ++ l₂)).length = _
      simp [Metrics.calculate_registration_timeliness, List.filter_append]
    · show (List.foldl (Metrics.regCountsStep pp) (0, 0)
        (List.filter Metrics.isInbornReg (l₁ ++ l₂))).1 = _
      rw [regCountsFoldEq]
      show _ = (List.foldl (Metrics.regCountsStep pp) (0, 0)
          (List.filter Metrics.isInbornReg l₁)).1 +
        (List.foldl (Metrics.regCountsStep pp) (0, 0)
          (List.filter Metrics.isInbornReg l₂)).1
      rw [regCountsFoldEq, regCountsFoldEq]
      simp [List.filter_append, List.countP_append]
    · show (List.foldl (Metrics.regCountsStep pp) (0, 0)
        (List.filter Metrics.isInbornReg (l₁ ++ l₂))).2 = _
      rw [regCountsFoldEq]
      show _ = (List.foldl (Metrics.regCountsStep pp) (0, 0)
          (List.filter Metrics.isInbornReg l₁)).2 +
        (List.foldl (Metrics.regCountsStep pp) (0, 0)
          (List.filter Metrics.isInbornReg l₂)).2
      rw [regCountsFoldEq, regCountsFoldEq]
      simp [List.filter_append, List.countP_append]

/-- Witness for C1 (amended): a duplicated uid record is ignored by the
death-rates main pass — the pass over `[r, r]` equals the pass over `[r]`. -/
theorem dedup_only_in_tracked_scans_amended_witness :
    (({ UID := some "u1" } : Metrics.DRBaby).UID = some "u1" ∧ ("u1" : String) ≠ "" ∧
      (∃ r' ∈ [({ UID := some "u1" } : Metrics.DRBaby)], r'.UID = some "u1")) ∧
    Metrics.deathRatesMainPass ppNone
        [({ UID := some "u1" } : Metrics.DRBaby), { UID := some "u1" }] =
      Metrics.deathRatesMainPass ppNone [({ UID := some "u1" } : Metrics.DRBaby)] :=
  ⟨⟨rfl, by decide, ⟨{ UID := some "u1" }, by simp, rfl⟩⟩,
    dedup_only_in_tracked_scans_amended.1 ppNone
      [{ UID := some "u1" }] { UID := some "u1" } [] "u1" rfl (by decide)
      ⟨{ UID := some "u1" }, by simp, rfl⟩⟩

/-- Counterexample to C1 as stated: duplicating a uid-sharing record changes
the output of `calculate_registration_timeliness` (2 inborn / 2 in-bucket
versus 1 / 1) and of `calculate_average_kmc_by_location` (2 observation days
and 2 counted babies versus 1 and 1), so first-seen-wins de-duplication does
*not* apply in every aggregator. -/
theorem no_dedup_everywhere_counterexample :
    (Metrics.calculate_registration_timeliness ppNone
      [Metrics.dupRegRecord, Metrics.dupRegRecord]).total_inborn = 2 ∧
    (Metrics.calculate_registration_timeliness ppNone
      [Metrics.dupRegRecord]).total_inborn = 1 ∧
    (Metrics.calculate_registration_timeliness ppNone
      [Metrics.dupRegRecord, Metrics.dupRegRecord]).within_12h_count = 2 ∧
    (Metrics.calculate_registration_timeliness ppNone
      [Metrics.dupRegRecord]).within_12h_count = 1 ∧
    Metrics.calculate_average_kmc_by_location ppNone
        [Metrics.dupAvgRecord, Metrics.dupAvgRecord]
        (dateOf 1700019800) (dateOf 1700019800) =
      some [{ hospital := "H", location := "L", avg_hours_per_day := 1,
              avg_hours_per_baby := 1, baby_count := 2, observation_days := 2 }] ∧
    Metrics.calculate_average_kmc_by_location ppNone [Metrics.dupAvgRecord]
        (dateOf 1700019800) (dateOf 1700019800) =
      some [{ hospital := "H", location := "L", avg_hours_per_day := 1,
              avg_hours_per_baby := 1, baby_count := 1, observation_days := 1 }] := by
  refine ⟨?_, ?_, ?_, ?_, ?_, ?_⟩ <;>
    norm_num [Metrics.dupRegRecord, Metrics.dupAvgRecord,
      Metrics.calculate_registration_timeliness, Metrics.regCountsStep,
      Metrics.isInbornReg, Metrics.calculate_average_kmc_by_location,
      Metrics.avgBabyStep, Metrics.avgAgeDayStep, Metrics.ensureLoc,
      Metrics.modifyLoc, convert_unix_to_datetime, pyTruthy, pyOrV,
      istOffsetSeconds, minEpochSeconds, maxEpochSeconds]

/-- **C10.** In `calculate_nurse_activity` a discharge record whose discharge
date is missing or fails normalization is still counted toward its nurse's
discharge total for *every* caller-supplied date window — in each of the three
pools of the collection-priority walk — whereas follow-up and registration
events are counted only when they have a parseable date inside the window
(an unparseable or out-of-window date contributes nothing). -/
theorem nurse_activity_discharge_date_bypass :
    ∀ (pp : String → Option ℚ) (startD endD : ℤ),
      (∀ (d : Metrics.NADisch) (u : String),
        d.UID = some u → u ≠ "" →
        d.dischargeNurseName.getD "Not specified" ≠ "Not specified" →
        convert_unix_to_datetime pp d.dischargeDate = Option.none →
        (Metrics.calculate_nurse_activity pp [] [d] startD endD []).2 =
          { discharge_collection := 1, baby_collection := 0, babybackup_collection := 0 }) ∧
      (∀ (b : Metrics.NABaby) (u : String),
        b.source = some "baby" → b.UID = some u → u ≠ "" →
        pyTruthy b.discharged = true →
        b.nurseName.getD "Not specified" ≠ "Not specified" →
        convert_unix_to_datetime pp (pyOrV b.lastDischargeDate b.dischargeDate) = Option.none →
        (Metrics.calculate_nurse_activity pp [b] [] startD endD []).2 =
          { discharge_collection := 0, baby_collection := 1, babybackup_collection := 0 }) ∧
      (∀ (b : Metrics.NABaby) (u : String),
        b.source = some "babyBackUp" → b.UID = some u → u ≠ "" →
        pyTruthy b.discharged = true →
        b.nurseName.getD "Not specified" ≠ "Not specified" →
        convert_unix_to_datetime pp (pyOrV b.dischargeDate b.lastDischargeDate) = Option.none →
        (Metrics.calculate_nurse_activity pp [b] [] startD endD []).2 =
          { discharge_collection := 0, baby_collection := 0, babybackup_collection := 1 }) ∧
      (∀ (n h : String) (f : Metrics.FUEntry),
        n ≠ "Not specified" →
        (∀ dq, convert_unix_to_datetime pp (pyOrV f.date f.followUpDate) = some dq →
          ¬(startD ≤ dateOf dq ∧ dateOf dq ≤ endD)) →
        Metrics.sumFollowUps (Metrics.calculate_nurse_activity pp
          [{ nurseName := some n, hospitalName := some h, followUp := [f] }]
          [] startD endD []).1 = 0) ∧
      (∀ (n h : String) (v : PyVal),
        n ≠ "Not specified" →
        (∀ dq, convert_unix_to_datetime pp v = some dq →
          ¬(startD ≤ dateOf dq ∧ dateOf dq ≤ endD)) →
        Metrics.sumRegistrations (Metrics.calculate_nurse_activity pp
          [{ nurseName := some n, hospitalName := some h, registrationDate := v }]
          [] startD endD []).1 = 0) := by
  intro pp startD endD
  refine ⟨?_, ?_, ?_, ?_, ?_⟩
  · intro d u huid hne hnurse hdate
    unfold Metrics.calculate_nurse_activity Metrics.naDischargePool1Step
    simp [huid, hne, hnurse, hdate, Metrics.dischargeDateOk,
      Metrics.hospitalSelected, Metrics.ensureNurse, Metrics.bumpNurse]
  · intro b u hsrc huid hne hdis hnurse hdate
    unfold Metrics.calculate_nurse_activity Metrics.naDischargePool2Step
      Metrics.naDischargePool3Step
    simp [hsrc, huid, hne, hdis, hnurse, hdate, Metrics.dischargeDateOk,
      Metrics.hospitalSelected, Metrics.ensureNurse, Metrics.bumpNurse,
      Metrics.naFollowUpStep, Metrics.naRegStep]
  · intro b u hsrc huid hne hdis hnurse hdate
    unfold Metrics.calculate_nurse_activity Metrics.naDischargePool2Step
      Metrics.naDischargePool3Step
    simp [hsrc, huid, hne, hdis, hnurse, hdate, Metrics.dischargeDateOk,
      Metrics.hospitalSelected, Metrics.ensureNurse, Metrics.bumpNurse,
      Metrics.naFollowUpStep, Metrics.naRegStep]
  · intro n h f hn hdate
    unfold Metrics.calculate_nurse_activity Metrics.naFollowUpStep Metrics.naRegStep
      Metrics.naDischargePool1Step Metrics.naDischargePool2Step Metrics.naDischargePool3Step
    rcases hc : convert_unix_to_datetime pp (pyOrV f.date f.followUpDate) with _ | dq
    · simp [hn, hc, Metrics.ensureNurse, Metrics.sumFollowUps]
      rfl
    · have hw := hdate dq hc
      simp [hn, hc, hw, Metrics.ensureNurse, Metrics.sumFollowUps]
      rfl
  · intro n h v hn hdate
    unfold Metrics.calculate_nurse_activity Metrics.naFollowUpStep Metrics.naRegStep
      Metrics.naDischargePool1Step Metrics.naDischargePool2Step Metrics.naDischargePool3Step
    rcases hc : convert_unix_to_datetime pp v with _ | dq
    · simp [hn, hc, Metrics.ensureNurse, Metrics.sumRegistrations]
    · have hw := hdate dq hc
      simp [hn, hc, hw, Metrics.ensureNurse, Metrics.sumRegistrations]

/-- Witness for C10: a discharge record with an absent discharge date and
nurse "Alice" is counted once in the discharge-collection pool for the window
`[0, 0]`. -/
theorem nurse_activity_discharge_date_bypass_witness :
    (convert_unix_to_datetime ppNone PyVal.none = Option.none ∧
      ("u1" : String) ≠ "" ∧
      ((some "Alice" : Option String).getD "Not specified" ≠ "Not specified")) ∧
    (Metrics.calculate_nurse_activity ppNone []
        [{ UID := some "u1", dischargeNurseName := some "Alice",
           dischargeDate := PyVal.none }] 0 0 []).2 =
      { discharge_collection := 1, baby_collection := 0, babybackup_collection := 0 } :=
  ⟨⟨rfl, by decide, by decide⟩,
    (nurse_activity_discharge_date_bypass ppNone 0 0).1
      { UID := some "u1", dischargeNurseName := some "Alice",
        dischargeDate := PyVal.none } "u1" rfl (by decide) (by decide) rfl⟩
